import Mathlib

/-!
Verification development for the Krishi Connect farm-management API
(files: flaskserver/app_postgresql.py, flaskserver/postgresql_implementation.py).

The relational store is modelled as explicit state (lists of rows), each
service method as a pure function from state and arguments to a result and a
new state.  A method that raises a Python exception is modelled with
`Except String`, the raised message being the exception text; the HTTP route
layer translates those into the uniform error envelope (code, message, HTTP
status).  Transactions: psycopg2 runs with autocommit off and the connection
pool rolls back any unfinished transaction when a connection is returned, so
an exception before `conn.commit()` discards all writes of the unit of work —
modelled by returning the original state on every error path.  Store-level
write failures (connection loss, constraint violation) are modelled by
explicit fault flags on the write statements.
-/

namespace KrishiConnect

/-- Decidable equality of `Except` results, so that concrete service
outcomes can be settled by `decide`. -/
instance {ε α : Type} [DecidableEq ε] [DecidableEq α] : DecidableEq (Except ε α)
  | Except.error x, Except.error y =>
    decidable_of_iff (x = y)
      ⟨fun h => by rw [h], fun h => by injection h⟩
  | Except.error _, Except.ok _ => Decidable.isFalse (fun h => by injection h)
  | Except.ok _, Except.error _ => Decidable.isFalse (fun h => by injection h)
  | Except.ok x, Except.ok y =>
    decidable_of_iff (x = y)
      ⟨fun h => by rw [h], fun h => by injection h⟩

/-- Uniform error envelope produced by `create_error_response` in
app_postgresql.py: machine-readable code, human message, HTTP status.
(The timestamp field of the real envelope is a serialization detail.) -/
structure ErrResp where
  code : String
  message : String
  status : Nat
deriving DecidableEq, Repr

/-! ## Token Service (app_postgresql.py: generate_jwt_token / jwt_required) -/

/-- Decoded JWT payload: user identity, role, absolute expiry (seconds),
issued-at time — the payload dict built by `generate_jwt_token`. -/
structure TokenPayload where
  user_id : Nat
  user_type : String
  exp : Nat
  iat : Nat
deriving DecidableEq, Repr

/-- A signed token: the payload plus an HMAC signature.  The signature is
modelled as the (key, payload) pair itself, i.e. an ideal unforgeable MAC:
it verifies against key `k` exactly when it was produced by signing this
very payload with `k`. -/
structure Token where
  payload : TokenPayload
  sig : Nat × TokenPayload
deriving DecidableEq, Repr

/-- `generate_jwt_token(user_id, user_type)`: payload with
`exp = now + timedelta(days=7)` and `iat = now`, signed with the
process-wide secret key. -/
def generate_jwt_token (secret_key : Nat) (user_id : Nat) (user_type : String)
    (now : Nat) : Token :=
  let payload : TokenPayload := ⟨user_id, user_type, now + 7 * 24 * 60 * 60, now⟩
  ⟨payload, (secret_key, payload)⟩

/-- The two exceptions `jwt.decode` can raise that the code distinguishes. -/
inductive JwtError where
  | expiredSignature
  | invalidToken
deriving DecidableEq, Repr

/-- `jwt.decode(token, key, algorithms=['HS256'])`: signature verification
first (PyJWT verifies the signature before validating claims), then the
`exp` claim — expired when the current time is past the embedded expiry. -/
def jwtDecode (t : Token) (secret_key : Nat) (now : Nat) :
    Except JwtError TokenPayload :=
  if t.sig ≠ (secret_key, t.payload) then Except.error JwtError.invalidToken
  else if t.payload.exp < now then Except.error JwtError.expiredSignature
  else Except.ok t.payload

/-- What arrives in the Authorization header once the optional `Bearer`
marker is stripped: a well-formed token, or bytes that do not parse as a
JWT at all (which `jwt.decode` rejects as invalid structure). -/
inductive Wire where
  | tok (t : Token)
  | malformed
deriving DecidableEq, Repr

/-- The `jwt_required` decorator: missing header → NO_TOKEN 401; decode
failure → TOKEN_EXPIRED / INVALID_TOKEN 401; success → the decoded
(user_id, user_type) pair handed to the wrapped route. -/
def jwt_required_check (header : Option Wire) (secret_key : Nat) (now : Nat) :
    Except ErrResp (Nat × String) :=
  match header with
  | none => Except.error ⟨"NO_TOKEN", "Token is missing", 401⟩
  | some Wire.malformed => Except.error ⟨"INVALID_TOKEN", "Token is invalid", 401⟩
  | some (Wire.tok t) =>
    match jwtDecode t secret_key now with
    | Except.error JwtError.expiredSignature =>
        Except.error ⟨"TOKEN_EXPIRED", "Token has expired", 401⟩
    | Except.error JwtError.invalidToken =>
        Except.error ⟨"INVALID_TOKEN", "Token is invalid", 401⟩
    | Except.ok p => Except.ok (p.user_id, p.user_type)

/-! ## Schema / migration applier
(postgresql_implementation.py: DatabaseSchema.get_schema_sql,
init_postgresql_database) -/

/-- The kinds of DDL/DML statements occurring in `get_schema_sql`, with
their guard against re-execution (or lack of one) made explicit. -/
inductive Stmt where
  | createExtensionIfNotExists (name : String)
  | createTableIfNotExists (name : String)
  | createIndexIfNotExists (name : String)
  | createOrReplaceFunction (name : String)
  | createTrigger (name : String)
  | insertSchemesOnConflictDoNothing (codes : List String)
deriving DecidableEq, Repr

/-- Catalog state of the PostgreSQL database: which extensions, tables,
indexes, functions and triggers exist, and which scheme codes have been
seeded into government_schemes. -/
structure SchemaDB where
  extensions : List String
  tables : List String
  indexes : List String
  functions : List String
  triggers : List String
  schemeCodes : List String
deriving DecidableEq, Repr

def emptySchemaDB : SchemaDB := ⟨[], [], [], [], [], []⟩

/-- Execute one schema statement.  Guarded statements skip when the object
exists; `CREATE TRIGGER` has no guard and PostgreSQL errors when the
trigger already exists; the seed INSERT skips conflicting scheme codes. -/
def execStmt (db : SchemaDB) : Stmt → Except String SchemaDB
  | Stmt.createExtensionIfNotExists n =>
    Except.ok (if n ∈ db.extensions then db
      else { db with extensions := db.extensions ++ [n] })
  | Stmt.createTableIfNotExists n =>
    Except.ok (if n ∈ db.tables then db
      else { db with tables := db.tables ++ [n] })
  | Stmt.createIndexIfNotExists n =>
    Except.ok (if n ∈ db.indexes then db
      else { db with indexes := db.indexes ++ [n] })
  | Stmt.createOrReplaceFunction n =>
    Except.ok (if n ∈ db.functions then db
      else { db with functions := db.functions ++ [n] })
  | Stmt.createTrigger n =>
    if n ∈ db.triggers then
      Except.error ("trigger " ++ n ++ " already exists")
    else Except.ok { db with triggers := db.triggers ++ [n] }
  | Stmt.insertSchemesOnConflictDoNothing codes =>
    let seeded := codes.foldl
      (fun acc c => if c ∈ acc then acc else acc ++ [c]) db.schemeCodes
    Except.ok { db with schemeCodes := seeded }

/-- Run a list of schema statements as one transaction: the first error
aborts the whole script. -/
def runSchema (db : SchemaDB) : List Stmt → Except String SchemaDB
  | [] => Except.ok db
  | s :: rest =>
    match execStmt db s with
    | Except.error e => Except.error e
    | Except.ok db1 => runSchema db1 rest

/-- The statement list of `DatabaseSchema.get_schema_sql`, in source order:
the uuid-ossp extension, the 11 tables, the 25 indexes, the timestamp
function, the 5 triggers (unguarded), and the government-scheme seed rows. -/
def schemaStatements : List Stmt :=
  [Stmt.createExtensionIfNotExists "uuid-ossp",
   Stmt.createTableIfNotExists "users",
   Stmt.createTableIfNotExists "user_sessions",
   Stmt.createTableIfNotExists "fields",
   Stmt.createTableIfNotExists "crops",
   Stmt.createTableIfNotExists "crop_growth_stages",
   Stmt.createTableIfNotExists "irrigation_records",
   Stmt.createTableIfNotExists "fertilizer_records",
   Stmt.createTableIfNotExists "yield_predictions",
   Stmt.createTableIfNotExists "climate_damage_claims",
   Stmt.createTableIfNotExists "government_schemes",
   Stmt.createTableIfNotExists "weather_data",
   Stmt.createIndexIfNotExists "idx_users_email",
   Stmt.createIndexIfNotExists "idx_users_user_type",
   Stmt.createIndexIfNotExists "idx_user_sessions_user_id",
   Stmt.createIndexIfNotExists "idx_user_sessions_token",
   Stmt.createIndexIfNotExists "idx_fields_user_id",
   Stmt.createIndexIfNotExists "idx_fields_status",
   Stmt.createIndexIfNotExists "idx_crops_user_id",
   Stmt.createIndexIfNotExists "idx_crops_field_id",
   Stmt.createIndexIfNotExists "idx_crops_sowing_date",
   Stmt.createIndexIfNotExists "idx_crops_status",
   Stmt.createIndexIfNotExists "idx_growth_stages_crop_id",
   Stmt.createIndexIfNotExists "idx_growth_stages_date",
   Stmt.createIndexIfNotExists "idx_irrigation_crop_id",
   Stmt.createIndexIfNotExists "idx_irrigation_date",
   Stmt.createIndexIfNotExists "idx_fertilizer_crop_id",
   Stmt.createIndexIfNotExists "idx_fertilizer_date",
   Stmt.createIndexIfNotExists "idx_yield_pred_user_id",
   Stmt.createIndexIfNotExists "idx_yield_pred_crop_id",
   Stmt.createIndexIfNotExists "idx_yield_pred_date",
   Stmt.createIndexIfNotExists "idx_claims_user_id",
   Stmt.createIndexIfNotExists "idx_claims_status",
   Stmt.createIndexIfNotExists "idx_claims_incident_date",
   Stmt.createIndexIfNotExists "idx_claims_reference",
   Stmt.createIndexIfNotExists "idx_weather_field_id",
   Stmt.createIndexIfNotExists "idx_weather_date",
   Stmt.createOrReplaceFunction "update_timestamp",
   Stmt.createTrigger "users_update_timestamp",
   Stmt.createTrigger "fields_update_timestamp",
   Stmt.createTrigger "crops_update_timestamp",
   Stmt.createTrigger "yield_predictions_update_timestamp",
   Stmt.createTrigger "climate_damage_claims_update_timestamp",
   Stmt.insertSchemesOnConflictDoNothing
     ["PMFBY", "WBCIS", "NAIS", "DISASTER_RELIEF", "KISAN_CREDIT"]]

/-- `init_postgresql_database()`: executes the whole schema script in one
transaction and commits; on any exception it logs and returns False, the
open transaction being rolled back (store unchanged). -/
def init_postgresql_database (db : SchemaDB) : Bool × SchemaDB :=
  match runSchema db schemaStatements with
  | Except.ok db1 => (true, db1)
  | Except.error _ => (false, db)

/-! ## Relational store state
Rows of the tables the verified operations touch.  UUIDs are modelled as
naturals drawn from a fresh-id counter; DECIMAL columns as exact integers
(PostgreSQL DECIMAL arithmetic is exact); timestamps as naturals. -/

/-- A row of `users` (columns used by the verified operations). -/
structure UserRow where
  id : Nat
  email : String
  password_hash : String
  name : String
  phone : Option String
  user_type : String
  location : Option String
  is_active : Bool
  last_login : Option Nat
deriving DecidableEq, Repr

/-- A row of `fields` (the columns selected by `get_user_fields`; the
purely-descriptive soil/weather columns are carried opaquely by
`soil_type`-style optionals and do not affect any verified operation). -/
structure FieldRow where
  id : Nat
  user_id : Nat
  field_name : String
  coordinates : List (Int × Int)
  area_hectares : Int
  soil_type : Option String
  status : String
  created_at : Nat
  updated_at : Nat
deriving DecidableEq, Repr

/-- A row of `crops` (columns used by the verified operations; the sowing
snapshot columns are write-only in the verified operations and elided). -/
structure CropRow where
  id : Nat
  user_id : Nat
  field_id : Nat
  crop_name : String
  crop_variety : Option String
  sowing_date : String
  expected_harvest_date : Option String
  total_water_used : Int
  irrigation_method : String
  total_nitrogen_applied : Int
  total_phosphorus_applied : Int
  total_potassium_applied : Int
  current_stage : String
  crop_status : String
deriving DecidableEq, Repr

/-- A row of `irrigation_records`. -/
structure IrrigationRow where
  id : Nat
  crop_id : Nat
  irrigation_date : String
  amount_mm : Int
  irrigation_method : String
  duration_minutes : Option Int
  notes : Option String
deriving DecidableEq, Repr

/-- The store state: the tables, plus the fresh-id counter standing in for
`uuid_generate_v4()`. -/
structure DB where
  users : List UserRow
  fields : List FieldRow
  crops : List CropRow
  irrigation_records : List IrrigationRow
  next_id : Nat
deriving DecidableEq, Repr

/-! ## Request-body dictionaries and Python truthiness -/

/-- Python truthiness of an optional string field of a JSON body:
`not data.get(k)` is true for an absent key and for the empty string. -/
def truthyStr : Option String → Bool
  | none => false
  | some s => s ≠ ""

/-- Python truthiness of an optional numeric field:
`not data.get(k)` is true for an absent key and for the number 0. -/
def truthyInt : Option Int → Bool
  | none => false
  | some n => n ≠ 0

lemma truthyStr_some_true {s : String} : truthyStr (some s) = true ↔ s ≠ "" := by
  by_cases h : s = "" <;> simp [truthyStr, h]

lemma truthyStr_some_false {s : String} : truthyStr (some s) = false ↔ s = "" := by
  by_cases h : s = "" <;> simp [truthyStr, h]

lemma truthyInt_some_false {n : Int} : truthyInt (some n) = false ↔ n = 0 := by
  by_cases h : n = 0 <;> simp [truthyInt, h]

/-- Whether the first character list begins with the second. -/
def beginsWith : List Char → List Char → Bool
  | _, [] => true
  | [], _ :: _ => false
  | c :: cs, d :: ds => c == d && beginsWith cs ds

/-- Whether `pat` occurs as a contiguous run of `l`. -/
def occursIn (pat : List Char) : List Char → Bool
  | [] => pat.isEmpty
  | c :: cs => beginsWith (c :: cs) pat || occursIn pat cs

/-- Python `pat in s` substring test, on the character lists. -/
def strContains (s pat : String) : Bool := occursIn pat.data s.data

/-- Model of werkzeug `generate_password_hash`: a one-way slow hash.  The
salt is elided (it only randomizes the stored text); what the claims need
is that `check_password_hash` accepts exactly the original password. -/
def generate_password_hash (p : String) : String := "pbkdf2-sha256$" ++ p

/-- Model of werkzeug `check_password_hash`. -/
def check_password_hash (h p : String) : Bool := h = generate_password_hash p

/-! ## UserService (postgresql_implementation.py) -/

/-- The successful result dict of `authenticate_user` / `create_user`
(id, email, name, user_type, ...); the password hash is never returned. -/
structure UserOut where
  id : Nat
  email : String
  name : String
  user_type : String
  location : Option String
deriving DecidableEq, Repr

/-- `UserService.create_user`: hashes the password and runs a single
INSERT INTO users.  The store's UNIQUE constraint on email makes the
insert raise IntegrityError when the email is already present, which the
method re-raises as "Email already exists"; there is no SELECT-based
existence check before the insert.  The CHECK constraint on user_type is
likewise enforced by the store.  On any error the transaction is not
committed, so the store is unchanged. -/
def create_user (db : DB) (email password name : String) (phone : Option String)
    (user_type : String) (location : Option String) : Except String UserOut × DB :=
  if db.users.any (fun u => u.email == email) then
    (Except.error "Email already exists", db)
  else if user_type ≠ "farmer" ∧ user_type ≠ "government" then
    (Except.error "Database error: check constraint user_type", db)
  else
    let uid := db.next_id
    let row : UserRow :=
      ⟨uid, email, generate_password_hash password, name, phone, user_type,
        location, true, none⟩
    (Except.ok ⟨uid, email, name, user_type, location⟩,
      { db with users := db.users ++ [row], next_id := db.next_id + 1 })

/-- `UserService.authenticate_user`: SELECT the active user by email; if
found and the password hash checks, UPDATE last_login and commit, then
return the user dict; otherwise return None (no error, store unchanged). -/
def authenticate_user (db : DB) (email password : String) (now : Nat) :
    Option UserOut × DB :=
  match db.users.find? (fun u => u.email == email && u.is_active) with
  | some u =>
    if check_password_hash u.password_hash password then
      (some ⟨u.id, u.email, u.name, u.user_type, u.location⟩,
        { db with users := db.users.map (fun v =>
            if v.id = u.id then { v with last_login := some now } else v) })
    else (none, db)
  | none => (none, db)

/-! ## FieldService (postgresql_implementation.py) -/

/-- The ORDER BY created_at DESC relation of `get_user_fields`. -/
def newerFirst (a b : FieldRow) : Prop := b.created_at ≤ a.created_at

instance : DecidableRel newerFirst := fun a b => Nat.decLe b.created_at a.created_at

instance : IsTotal FieldRow newerFirst :=
  ⟨fun a b => Nat.le_total b.created_at a.created_at⟩

instance : IsTrans FieldRow newerFirst :=
  ⟨fun _ _ _ hab hbc => Nat.le_trans hbc hab⟩

/-- `FieldService.get_user_fields(user_id, limit=50)`:
SELECT ... FROM fields WHERE user_id = %s AND status = 'active'
ORDER BY created_at DESC LIMIT %s. -/
def get_user_fields (db : DB) (user_id : Nat) (limit : Nat := 50) : List FieldRow :=
  (((db.fields.filter (fun f => f.user_id == user_id && f.status == "active")).insertionSort
    newerFirst).take limit)

/-- GET /api/fields route body: `limit = int(request.args.get('limit', 50))`
then `get_user_fields(current_user_id, limit)`. -/
def get_fields_route (db : DB) (current_user_id : Nat) (limitParam : Option Nat) :
    List FieldRow :=
  get_user_fields db current_user_id (limitParam.getD 50)

/-! ## CropService (postgresql_implementation.py) -/

/-- The JSON body of POST /api/crops (keys read by the route and by
`create_crop_lifecycle`; the optional sowing-snapshot numbers are elided
as write-only). -/
structure CropData where
  field_id : Option Nat
  crop_name : Option String
  crop_variety : Option String
  sowing_date : Option String
  expected_harvest_date : Option String
  irrigation_method : Option String
deriving DecidableEq, Repr

/-- `CropService.create_crop_lifecycle(user_id, crop_data)`: one INSERT
INTO crops.  The store enforces the NOT NULL foreign keys user_id →
users and field_id → fields; it performs no check that the referenced
field belongs to `user_id`.  The running totals take their column
defaults 0, current_stage defaults to 'seeded', crop_status to 'active'.
On error nothing is committed. -/
def create_crop_lifecycle (db : DB) (user_id : Nat) (d : CropData) :
    Except String Nat × DB :=
  match d.field_id, d.crop_name, d.sowing_date with
  | some fid, some cname, some sdate =>
    if ¬ db.users.any (fun u => u.id == user_id) then
      (Except.error "Error creating crop lifecycle: fk user_id", db)
    else if ¬ db.fields.any (fun f => f.id == fid) then
      (Except.error "Error creating crop lifecycle: fk field_id", db)
    else
      let cid := db.next_id
      let row : CropRow :=
        ⟨cid, user_id, fid, cname, d.crop_variety, sdate,
          d.expected_harvest_date, 0, d.irrigation_method.getD "manual",
          0, 0, 0, "seeded", "active"⟩
      (Except.ok cid,
        { db with crops := db.crops ++ [row], next_id := db.next_id + 1 })
  | _, _, _ => (Except.error "Error creating crop lifecycle: missing key", db)

/-- The JSON body of POST /api/crops/{id}/irrigation. -/
structure IrrigationData where
  irrigation_date : Option String
  amount_mm : Option Int
  irrigation_method : Option String
  duration_minutes : Option Int
  notes : Option String
deriving DecidableEq, Repr

/-- `CropService.add_irrigation_record(crop_id, irrigation_data)`: on one
connection, (1) INSERT the irrigation_records row (the foreign key
requires the crop to exist), (2) UPDATE crops SET total_water_used =
total_water_used + amount (an in-store atomic increment), then commit.
An error in either statement raises before the commit, so neither write
persists (the pool rolls the open transaction back) — modelled by
returning the original store.  `failInsert` / `failUpdate` inject
store-level failures of the two statements. -/
def add_irrigation_record (failInsert failUpdate : Bool) (db : DB)
    (crop_id : Nat) (d : IrrigationData) : Except String Nat × DB :=
  match d.irrigation_date, d.amount_mm with
  | some date, some amt =>
    if failInsert ∨ ¬ db.crops.any (fun c => c.id == crop_id) then
      (Except.error "Error adding irrigation record: insert failed", db)
    else
      let rid := db.next_id
      let row : IrrigationRow :=
        ⟨rid, crop_id, date, amt, d.irrigation_method.getD "manual",
          d.duration_minutes, d.notes⟩
      if failUpdate then
        (Except.error "Error adding irrigation record: update failed", db)
      else
        (Except.ok rid,
          { db with
            irrigation_records := db.irrigation_records ++ [row],
            crops := db.crops.map (fun c =>
              if c.id = crop_id then
                { c with total_water_used := c.total_water_used + amt }
              else c),
            next_id := db.next_id + 1 })
  | _, _ => (Except.error "Error adding irrigation record: missing key", db)

/-! ## Route bodies (app_postgresql.py), after `jwt_required` has already
admitted the request with identity `current_user_id`. -/

/-- The JSON body of POST /api/auth/register. -/
structure RegisterData where
  email : Option String
  password : Option String
  name : Option String
  user_type : Option String
  phone : Option String
  location : Option String
deriving DecidableEq, Repr

/-- POST /api/auth/register: required-field truthiness checks in source
order, user_type whitelist, then `create_user`; "Email already exists"
in the exception text maps to EMAIL_EXISTS 409, any other exception to
REGISTRATION_FAILED 500.  (Token issuance on success is covered by the
Token Service model.) -/
def register_route (db : DB) (d : RegisterData) : Except ErrResp UserOut × DB :=
  if ¬ truthyStr d.email then
    (Except.error ⟨"MISSING_FIELD", "email is required", 400⟩, db)
  else if ¬ truthyStr d.password then
    (Except.error ⟨"MISSING_FIELD", "password is required", 400⟩, db)
  else if ¬ truthyStr d.name then
    (Except.error ⟨"MISSING_FIELD", "name is required", 400⟩, db)
  else if ¬ truthyStr d.user_type then
    (Except.error ⟨"MISSING_FIELD", "user_type is required", 400⟩, db)
  else if d.user_type ≠ some "farmer" ∧ d.user_type ≠ some "government" then
    (Except.error ⟨"INVALID_USER_TYPE", "User type must be farmer or government", 400⟩, db)
  else
    match create_user db (d.email.getD "") (d.password.getD "") (d.name.getD "")
      d.phone (d.user_type.getD "") d.location with
    | (Except.error msg, db1) =>
      if strContains msg "Email already exists" then
        (Except.error ⟨"EMAIL_EXISTS", "Email already registered", 409⟩, db1)
      else (Except.error ⟨"REGISTRATION_FAILED", msg, 500⟩, db1)
    | (Except.ok u, db1) => (Except.ok u, db1)

/-- The JSON body of POST /api/auth/login. -/
structure LoginData where
  email : Option String
  password : Option String
  user_type : Option String
deriving DecidableEq, Repr

/-- The exact error envelope the login route returns when
`authenticate_user` yields None, whatever the cause. -/
def invalidCredentialsResp : ErrResp :=
  ⟨"INVALID_CREDENTIALS", "Invalid email or password", 401⟩

/-- POST /api/auth/login: credential presence check, `authenticate_user`,
None → INVALID_CREDENTIALS 401; then the optional user_type comparison →
USER_TYPE_MISMATCH 403; else success. -/
def login_route (db : DB) (d : LoginData) (now : Nat) : Except ErrResp UserOut × DB :=
  if ¬ truthyStr d.email ∨ ¬ truthyStr d.password then
    (Except.error ⟨"MISSING_CREDENTIALS", "Email and password are required", 400⟩, db)
  else
    match authenticate_user db (d.email.getD "") (d.password.getD "") now with
    | (none, db1) => (Except.error invalidCredentialsResp, db1)
    | (some u, db1) =>
      if truthyStr d.user_type ∧ some u.user_type ≠ d.user_type then
        (Except.error ⟨"USER_TYPE_MISMATCH", "User type does not match", 403⟩, db1)
      else (Except.ok u, db1)

/-- POST /api/crops route body: required-field truthiness checks
(field_id, crop_name, sowing_date) then `create_crop_lifecycle` with the
authenticated user's id; exceptions map to CREATE_CROP_FAILED 500.  Note
the route passes `current_user_id` only as the new crop's owner — neither
layer compares it with the owner of the referenced field. -/
def create_crop_route (db : DB) (current_user_id : Nat) (d : CropData) :
    Except ErrResp Nat × DB :=
  if d.field_id = none then
    (Except.error ⟨"MISSING_FIELD", "field_id is required", 400⟩, db)
  else if ¬ truthyStr d.crop_name then
    (Except.error ⟨"MISSING_FIELD", "crop_name is required", 400⟩, db)
  else if ¬ truthyStr d.sowing_date then
    (Except.error ⟨"MISSING_FIELD", "sowing_date is required", 400⟩, db)
  else
    match create_crop_lifecycle db current_user_id d with
    | (Except.error msg, db1) =>
      (Except.error ⟨"CREATE_CROP_FAILED", msg, 500⟩, db1)
    | (Except.ok cid, db1) => (Except.ok cid, db1)

/-- POST /api/crops/{crop_id}/irrigation route body: required-field
truthiness checks (irrigation_date, amount_mm — Python `not data.get(f)`,
so 0 is "missing" but a negative number passes), then
`add_irrigation_record(crop_id, data)`; exceptions map to
ADD_IRRIGATION_FAILED 500.  The authenticated `current_user_id` is in
scope but unused: no ownership check relates it to the crop. -/
def add_irrigation_route (failInsert failUpdate : Bool) (db : DB)
    (current_user_id : Nat) (crop_id : Nat) (d : IrrigationData) :
    Except ErrResp Nat × DB :=
  if ¬ truthyStr d.irrigation_date then
    (Except.error ⟨"MISSING_FIELD", "irrigation_date is required", 400⟩, db)
  else if ¬ truthyInt d.amount_mm then
    (Except.error ⟨"MISSING_FIELD", "amount_mm is required", 400⟩, db)
  else
    match add_irrigation_record failInsert failUpdate db crop_id d with
    | (Except.error msg, db1) =>
      (Except.error ⟨"ADD_IRRIGATION_FAILED", msg, 500⟩, db1)
    | (Except.ok rid, db1) => (Except.ok rid, db1)

/-! ## Derived observations and concrete scenario data -/

/-- The running total `total_water_used` of the crop row with the given id
(`None` when no such crop exists). -/
def cropTotal (db : DB) (cid : Nat) : Option Int :=
  (db.crops.find? (fun c => c.id == cid)).map (fun c => c.total_water_used)

/-- Issue a sequence of `add_irrigation_record` calls (no injected store
faults) against one crop, threading the store. -/
def runIrrigations (db : DB) (cid : Nat) : List (String × Int) → DB
  | [] => db
  | e :: es =>
    runIrrigations
      (add_irrigation_record false false db cid
        ⟨some e.1, some e.2, none, none, none⟩).2 cid es

/-- Farmer A: owner of the sample field and crop. -/
def userA : UserRow :=
  ⟨1, "a@x.com", generate_password_hash "pwA", "Farmer A", none, "farmer",
    none, true, none⟩

/-- Farmer B: a different authenticated user, owning nothing here. -/
def userB : UserRow :=
  ⟨2, "b@x.com", generate_password_hash "pwB", "Farmer B", none, "farmer",
    none, true, none⟩

/-- Field F1, owned by farmer A, active. -/
def field10 : FieldRow :=
  ⟨10, 1, "North Field", [(18, 73)], 2, some "Loamy", "active", 5, 5⟩

/-- Crop C1 on field F1, owned by farmer A, fresh totals. -/
def crop20 : CropRow :=
  ⟨20, 1, 10, "Wheat", none, "2025-11-15", none, 0, "manual", 0, 0, 0,
    "seeded", "active"⟩

/-- The concrete store used by the scenario theorems. -/
def baseDB : DB := ⟨[userA, userB], [field10], [crop20], [], 100⟩

/-- A well-formed POST /api/crops body referencing field F1. -/
def sampleCropData : CropData :=
  ⟨some 10, some "Wheat", none, some "2025-11-15", none, none⟩

/-- A well-formed irrigation body (date plus a positive amount). -/
def sampleIrrigationData : IrrigationData :=
  ⟨some "2025-11-20", some 10, none, none, none⟩

/-! ## Helper lemmas -/

/-- Updating the water total of the crop with id `cid` commutes with
looking that crop up. -/
lemma find?_crops_update (l : List CropRow) (cid : Nat) (a : Int) :
    (l.map (fun c => if c.id = cid then
        { c with total_water_used := c.total_water_used + a } else c)).find?
        (fun c => c.id == cid)
      = (l.find? (fun c => c.id == cid)).map
          (fun c => { c with total_water_used := c.total_water_used + a }) := by
  induction l with
  | nil => rfl
  | cons h t ih =>
    by_cases hc : h.id = cid
    · rw [List.map_cons, if_pos hc, List.find?_cons_of_pos _ (by simp [hc]),
        List.find?_cons_of_pos _ (by simp [hc])]
      rfl
    · rw [List.map_cons, if_neg hc, List.find?_cons_of_neg _ (by simp [hc]),
        List.find?_cons_of_neg _ (by simp [hc]), ih]

/-- Success case of `add_irrigation_record`: when the crop exists and no
store fault is injected, the record row is appended and the crop's
running total is incremented, in one committed transaction. -/
lemma add_irrigation_record_ok (db : DB) (cid : Nat) (date : String) (amt : Int)
    (hany : db.crops.any (fun c => c.id == cid) = true) :
    add_irrigation_record false false db cid ⟨some date, some amt, none, none, none⟩
      = (Except.ok db.next_id,
         { db with
           irrigation_records := db.irrigation_records ++
             [⟨db.next_id, cid, date, amt, "manual", none, none⟩],
           crops := db.crops.map (fun c =>
             if c.id = cid then
               { c with total_water_used := c.total_water_used + amt }
             else c),
           next_id := db.next_id + 1 }) := by
  simp [add_irrigation_record, hany]

/-- Each successful `add_irrigation_record` adds its amount to the running
total; over a whole sequence the increments accumulate. -/
lemma runIrrigations_total (cid : Nat) (evs : List (String × Int)) :
    ∀ (db : DB) (t : Int), cropTotal db cid = some t →
      cropTotal (runIrrigations db cid evs) cid
        = some (t + (evs.map Prod.snd).sum) := by
  induction evs with
  | nil => intro db t h; simpa using h
  | cons e es ih =>
    intro db t h
    obtain ⟨c, hc⟩ : ∃ c, db.crops.find? (fun c => c.id == cid) = some c := by
      cases hfind : db.crops.find? (fun c => c.id == cid) with
      | none => rw [cropTotal, hfind] at h; cases h
      | some c => exact ⟨c, rfl⟩
    have hany : db.crops.any (fun c => c.id == cid) = true := by
      rw [List.any_eq_true]
      exact ⟨c, List.mem_of_find?_eq_some hc, by simpa using List.find?_some hc⟩
    have ht : c.total_water_used = t := by
      rw [cropTotal, hc] at h
      exact Option.some.inj h
    have hstep : cropTotal (add_irrigation_record false false db cid
        ⟨some e.1, some e.2, none, none, none⟩).2 cid = some (t + e.2) := by
      simp only [add_irrigation_record_ok db cid e.1 e.2 hany, cropTotal]
      rw [find?_crops_update, hc]
      simp [ht]
    rw [runIrrigations, ih _ _ hstep]
    rw [List.map_cons, List.sum_cons]
    rw [Int.add_assoc]

/-- C1 scaffolding: a crop freshly created by `create_crop_lifecycle` has
running total 0 and is found by its returned id. -/
lemma create_crop_total_zero (db db' : DB) (uid cid : Nat) (d : CropData)
    (hfresh : ∀ c ∈ db.crops, c.id < db.next_id)
    (hok : create_crop_lifecycle db uid d = (Except.ok cid, db')) :
    cropTotal db' cid = some 0 := by
  rcases hfid : d.field_id with _ | fid
  · simp [create_crop_lifecycle, hfid] at hok
  rcases hcn : d.crop_name with _ | cname
  · simp [create_crop_lifecycle, hfid, hcn] at hok
  rcases hsd : d.sowing_date with _ | sdate
  · simp [create_crop_lifecycle, hfid, hcn, hsd] at hok
  by_cases hu : (db.users.any fun u => u.id == uid) = true
  swap
  · simp [create_crop_lifecycle, hfid, hcn, hsd, hu] at hok
  by_cases hf : (db.fields.any fun f => f.id == fid) = true
  swap
  · simp [create_crop_lifecycle, hfid, hcn, hsd, hu, hf] at hok
  rw [create_crop_lifecycle] at hok
  simp only [hfid, hcn, hsd, hu, hf, not_true_eq_false, if_false,
    Prod.mk.injEq, Except.ok.injEq] at hok
  obtain ⟨hcid, hdb⟩ := hok
  subst hcid
  have hnone : db.crops.find? (fun c => c.id == db.next_id) = none :=
    List.find?_eq_none.mpr
      (fun c hcmem => by simpa using Nat.ne_of_lt (hfresh c hcmem))
  rw [← hdb, cropTotal]
  simp only [List.find?_append, hnone, Option.none_or]
  rw [List.find?_cons_of_pos _ (by simp)]
  rfl

/-- C1: a crop is created with its running total initialized to 0, and a
sequence of N successful `add_irrigation_record` calls with amounts
a1..aN leaves `total_water_used` equal to a1+...+aN — each insertion
increments the parent crop's running total. -/
theorem crop_total_water_eq_sum (db db' : DB) (uid cid : Nat) (d : CropData)
    (hfresh : ∀ c ∈ db.crops, c.id < db.next_id)
    (hok : create_crop_lifecycle db uid d = (Except.ok cid, db'))
    (evs : List (String × Int)) :
    cropTotal db' cid = some 0 ∧
    cropTotal (runIrrigations db' cid evs) cid = some (evs.map Prod.snd).sum := by
  have h0 := create_crop_total_zero db db' uid cid d hfresh hok
  refine ⟨h0, ?_⟩
  have := runIrrigations_total cid evs db' 0 h0
  simpa using this

/-- C1 witness: creating a crop in the concrete store and irrigating it
with 10 mm and 15 mm leaves `total_water_used = 25`. -/
theorem crop_total_water_eq_sum_witness :
    cropTotal (runIrrigations (create_crop_lifecycle baseDB 1 sampleCropData).2
      100 [("2025-11-20", 10), ("2025-11-25", 15)]) 100 = some 25 := by
  have h := crop_total_water_eq_sum baseDB
    (create_crop_lifecycle baseDB 1 sampleCropData).2 1 100 sampleCropData
    (by decide) (by decide) [("2025-11-20", 10), ("2025-11-25", 15)]
  simpa using h.2

/-- Failure case of `add_irrigation_record`: whenever either of the two
writes fails, the exception is raised before `conn.commit()`, so the
whole transaction is discarded — the store comes back unchanged. -/
lemma add_irrigation_record_fail (fI fU : Bool) (db : DB) (cid : Nat)
    (d : IrrigationData) (hfail : fI = true ∨ fU = true) :
    ∃ m, add_irrigation_record fI fU db cid d = (Except.error m, db) := by
  rcases hd : d.irrigation_date with _ | date
  · exact ⟨"Error adding irrigation record: missing key", by
      simp [add_irrigation_record, hd]⟩
  rcases ha : d.amount_mm with _ | amt
  · exact ⟨"Error adding irrigation record: missing key", by
      simp [add_irrigation_record, hd, ha]⟩
  rcases hfail with hfail | hfail
  · exact ⟨"Error adding irrigation record: insert failed", by
      simp [add_irrigation_record, hd, ha, hfail]⟩
  · by_cases hI : fI = true
    · exact ⟨"Error adding irrigation record: insert failed", by
        simp [add_irrigation_record, hd, ha, hI]⟩
    · by_cases hany : (db.crops.any fun c => c.id == cid) = true
      · exact ⟨"Error adding irrigation record: update failed", by
          simp [add_irrigation_record, hd, ha, hI, hany, hfail]⟩
      · exact ⟨"Error adding irrigation record: insert failed", by
          simp [add_irrigation_record, hd, ha, hI, hany]⟩

/-- C2 (amended): `add_irrigation_record` performs its two writes as one
atomic unit — if either write fails, the transaction rolls back, so
neither the event row nor the total change persists, and the route
reports the error code ADD_IRRIGATION_FAILED (HTTP 500). -/
theorem irrigation_partial_failure_rolls_back (fI fU : Bool) (db : DB)
    (uid cid : Nat) (d : IrrigationData)
    (hdate : truthyStr d.irrigation_date = true)
    (hamt : truthyInt d.amount_mm = true)
    (hfail : fI = true ∨ fU = true) :
    ∃ m, add_irrigation_route fI fU db uid cid d
      = (Except.error ⟨"ADD_IRRIGATION_FAILED", m, 500⟩, db) := by
  obtain ⟨m, hm⟩ := add_irrigation_record_fail fI fU db cid d hfail
  exact ⟨m, by simp [add_irrigation_route, hdate, hamt, hm]⟩

/-- C2 witness: a concrete failing increment write rolls the whole
operation back on the concrete store. -/
theorem irrigation_partial_failure_rolls_back_witness :
    ∃ m, add_irrigation_route false true baseDB 1 20 sampleIrrigationData
      = (Except.error ⟨"ADD_IRRIGATION_FAILED", m, 500⟩, baseDB) :=
  irrigation_partial_failure_rolls_back false true baseDB 1 20
    sampleIrrigationData (by decide) (by decide) (Or.inr rfl)

/-- C2 counterexample: on a partial failure the operation reports
ADD_IRRIGATION_FAILED, not the CREATE_FAILED code the claim names. -/
theorem irrigation_failure_code_not_create_failed :
    (add_irrigation_route false true baseDB 1 20 sampleIrrigationData).1
      = Except.error
          ⟨"ADD_IRRIGATION_FAILED",
            "Error adding irrigation record: update failed", 500⟩
    ∧ "ADD_IRRIGATION_FAILED" ≠ "CREATE_FAILED" := by
  constructor
  · rfl
  · decide

/-- C3 (code bug): writes are not scoped by the authenticated identity.
In the concrete store every field and crop belongs to farmer A (id 1),
yet farmer B (id 2) successfully creates a crop on A's field and
successfully adds an irrigation record to A's crop — the record is
persisted and A's total is changed; no Unauthorized/ownership error is
produced by either layer. -/
theorem ownership_checks_absent :
    (∀ f ∈ baseDB.fields, f.user_id = 1) ∧
    (∀ c ∈ baseDB.crops, c.user_id = 1) ∧
    (create_crop_route baseDB 2 sampleCropData).1 = Except.ok 100 ∧
    ((create_crop_route baseDB 2 sampleCropData).2).crops.any
      (fun c => c.id == 100 && c.user_id == 2 && c.field_id == 10) = true ∧
    (add_irrigation_route false false baseDB 2 20 sampleIrrigationData).1
      = Except.ok 100 ∧
    ((add_irrigation_route false false baseDB 2 20
        sampleIrrigationData).2).irrigation_records
      = [⟨100, 20, "2025-11-20", 10, "manual", none, none⟩] ∧
    cropTotal (add_irrigation_route false false baseDB 2 20
        sampleIrrigationData).2 20 = some 10 := by
  decide

/-- C4: token validation has exactly the three failure outcomes with
distinct machine-readable codes — NO_TOKEN when no token is supplied,
TOKEN_EXPIRED when the current time is past the embedded expiry (which
issuance sets to 7 days after the issue instant), INVALID_TOKEN when
signature or structure verification fails — and an untampered,
unexpired token validates to its embedded identity. -/
theorem token_validation_trichotomy (k now issued uid : Nat) (ut : String)
    (t : Token) :
    jwt_required_check none k now
      = Except.error ⟨"NO_TOKEN", "Token is missing", 401⟩ ∧
    jwt_required_check (some Wire.malformed) k now
      = Except.error ⟨"INVALID_TOKEN", "Token is invalid", 401⟩ ∧
    (t.sig ≠ (k, t.payload) →
      jwt_required_check (some (Wire.tok t)) k now
        = Except.error ⟨"INVALID_TOKEN", "Token is invalid", 401⟩) ∧
    (t.sig = (k, t.payload) → t.payload.exp < now →
      jwt_required_check (some (Wire.tok t)) k now
        = Except.error ⟨"TOKEN_EXPIRED", "Token has expired", 401⟩) ∧
    (generate_jwt_token k uid ut issued).payload.exp
      = issued + 7 * 24 * 60 * 60 ∧
    (now ≤ issued + 7 * 24 * 60 * 60 →
      jwt_required_check (some (Wire.tok (generate_jwt_token k uid ut issued)))
        k now = Except.ok (uid, ut)) ∧
    ("NO_TOKEN" ≠ "TOKEN_EXPIRED" ∧ "NO_TOKEN" ≠ "INVALID_TOKEN" ∧
      "TOKEN_EXPIRED" ≠ "INVALID_TOKEN") := by
  refine ⟨rfl, rfl, ?_, ?_, rfl, ?_, by decide⟩
  · intro hsig
    simp [jwt_required_check, jwtDecode, hsig]
  · intro hsig hexp
    simp [jwt_required_check, jwtDecode, hsig, hexp]
  · intro hnow
    simp [jwt_required_check, jwtDecode, generate_jwt_token,
      Nat.not_lt.mpr hnow]

/-- C4 witness: the three failure branches and the success branch at
concrete inputs (key 5, issue instant 1000). -/
theorem token_validation_trichotomy_witness :
    jwt_required_check
        (some (Wire.tok ⟨⟨8, "farmer", 999, 0⟩, (5, ⟨7, "farmer", 999, 0⟩)⟩))
        5 100
      = Except.error ⟨"INVALID_TOKEN", "Token is invalid", 401⟩ ∧
    jwt_required_check
        (some (Wire.tok (generate_jwt_token 5 7 "farmer" 1000))) 5 999999
      = Except.error ⟨"TOKEN_EXPIRED", "Token has expired", 401⟩ ∧
    jwt_required_check
        (some (Wire.tok (generate_jwt_token 5 7 "farmer" 1000))) 5 1500
      = Except.ok (7, "farmer") := by
  refine ⟨?_, ?_, ?_⟩
  · exact (token_validation_trichotomy 5 100 0 0 "" _).2.2.1 (by decide)
  · exact (token_validation_trichotomy 5 999999 1000 7 "farmer"
      (generate_jwt_token 5 7 "farmer" 1000)).2.2.2.1 (by decide) (by decide)
  · exact (token_validation_trichotomy 5 1500 1000 7 "farmer"
      (generate_jwt_token 5 7 "farmer" 1000)).2.2.2.2.2.1 (by decide)

/-- C5: registering with an email that already has a user row fails with
EMAIL_EXISTS (409) and leaves the store unchanged — no second row.  The
duplicate is surfaced by the INSERT hitting the store's UNIQUE
constraint (`create_user` issues the insert directly, with no prior
existence SELECT). -/
theorem duplicate_email_rejected (db : DB) (d : RegisterData) (e : String)
    (he : d.email = some e) (hne : e ≠ "")
    (hp : truthyStr d.password = true) (hn : truthyStr d.name = true)
    (ht : d.user_type = some "farmer" ∨ d.user_type = some "government")
    (hex : db.users.any (fun u => u.email == e) = true) :
    register_route db d
      = (Except.error ⟨"EMAIL_EXISTS", "Email already registered", 409⟩, db) := by
  have hcu : create_user db e (d.password.getD "") (d.name.getD "") d.phone
      (d.user_type.getD "") d.location = (Except.error "Email already exists", db) := by
    simp [create_user, hex]
  have hsub : strContains "Email already exists" "Email already exists" = true := by
    decide
  rcases ht with ht | ht <;>
    simp only [ht, Option.getD_some] at hcu <;>
    simp [register_route, he, hne, hp, hn, ht, hcu, hsub,
      truthyStr_some_false]

/-- C5 witness: re-registering farmer A's email on the concrete store. -/
theorem duplicate_email_rejected_witness :
    register_route baseDB ⟨some "a@x.com", some "pwNew", some "Someone",
        some "farmer", none, none⟩
      = (Except.error ⟨"EMAIL_EXISTS", "Email already registered", 409⟩, baseDB) :=
  duplicate_email_rejected baseDB _ "a@x.com" rfl (by decide) (by decide)
    (by decide) (Or.inl rfl) (by decide)

/-- C6: `get_user_fields` returns only active fields of the requesting
user, most-recently-created first, at most `limit` of them, and the
route's default limit is 50. -/
theorem listForOwner_spec (db : DB) (uid limit : Nat) :
    (∀ f ∈ get_user_fields db uid limit,
      f.user_id = uid ∧ f.status = "active") ∧
    (get_user_fields db uid limit).length ≤ limit ∧
    (get_user_fields db uid limit).Pairwise newerFirst ∧
    get_fields_route db uid none = get_user_fields db uid 50 := by
  refine ⟨?_, ?_, ?_, rfl⟩
  · intro f hf
    have h1 := List.mem_of_mem_take hf
    rw [List.mem_insertionSort] at h1
    have h2 := (List.mem_filter.mp h1).2
    simp only [Bool.and_eq_true, beq_iff_eq] at h2
    exact h2
  · exact List.length_take_le _ _
  · exact List.Pairwise.sublist (List.take_sublist _ _)
      (List.sorted_insertionSort newerFirst _)

/-- C6 witness: on the concrete store, the listed field is A's active
field and the result respects the default cap of 50. -/
theorem listForOwner_spec_witness :
    (field10.user_id = 1 ∧ field10.status = "active") ∧
    (get_user_fields baseDB 1 50).length ≤ 50 :=
  ⟨(listForOwner_spec baseDB 1 50).1 field10 (by decide),
    (listForOwner_spec baseDB 1 50).2.1⟩

/-- C7: authentication is non-disclosing — `authenticate_user` returns
None (not an error) both when no active user carries the email and when
the password is wrong, and in both runs the login route produces the
identical INVALID_CREDENTIALS response. -/
theorem invalid_credentials_indistinguishable (dbA dbB : DB) (e p : String)
    (tA tB : Option String) (now : Nat) (he : e ≠ "") (hp : p ≠ "")
    (hA : dbA.users.find? (fun u => u.email == e && u.is_active) = none)
    (u : UserRow)
    (hB : dbB.users.find? (fun u => u.email == e && u.is_active) = some u)
    (hpw : check_password_hash u.password_hash p = false) :
    authenticate_user dbA e p now = (none, dbA) ∧
    authenticate_user dbB e p now = (none, dbB) ∧
    login_route dbA ⟨some e, some p, tA⟩ now
      = (Except.error invalidCredentialsResp, dbA) ∧
    login_route dbB ⟨some e, some p, tB⟩ now
      = (Except.error invalidCredentialsResp, dbB) ∧
    (login_route dbA ⟨some e, some p, tA⟩ now).1
      = (login_route dbB ⟨some e, some p, tB⟩ now).1 := by
  have h1 : authenticate_user dbA e p now = (none, dbA) := by
    simp [authenticate_user, hA]
  have h2 : authenticate_user dbB e p now = (none, dbB) := by
    simp [authenticate_user, hB, hpw]
  have h3 : login_route dbA ⟨some e, some p, tA⟩ now
      = (Except.error invalidCredentialsResp, dbA) := by
    simp [login_route, he, hp, h1, truthyStr_some_false]
  have h4 : login_route dbB ⟨some e, some p, tB⟩ now
      = (Except.error invalidCredentialsResp, dbB) := by
    simp [login_route, he, hp, h2, truthyStr_some_false]
  exact ⟨h1, h2, h3, h4, by rw [h3, h4]⟩

/-- C7 witness: unknown email versus wrong password for farmer A, on
stores with and without the user — same response value. -/
theorem invalid_credentials_indistinguishable_witness :
    authenticate_user ⟨[], [], [], [], 0⟩ "a@x.com" "wrong" 77
      = (none, ⟨[], [], [], [], 0⟩) ∧
    authenticate_user baseDB "a@x.com" "wrong" 77 = (none, baseDB) ∧
    login_route ⟨[], [], [], [], 0⟩ ⟨some "a@x.com", some "wrong", none⟩ 77
      = (Except.error invalidCredentialsResp, ⟨[], [], [], [], 0⟩) ∧
    login_route baseDB ⟨some "a@x.com", some "wrong", none⟩ 77
      = (Except.error invalidCredentialsResp, baseDB) ∧
    (login_route ⟨[], [], [], [], 0⟩ ⟨some "a@x.com", some "wrong", none⟩ 77).1
      = (login_route baseDB ⟨some "a@x.com", some "wrong", none⟩ 77).1 :=
  invalid_credentials_indistinguishable ⟨[], [], [], [], 0⟩ baseDB
    "a@x.com" "wrong" none none 77 (by decide) (by decide) (by decide)
    userA (by decide) (by decide)

/-- C8 (amended): an absent or zero `amount_mm` is falsy under the
route's `not data.get(field)` check, so the request is rejected with a
MISSING_FIELD 400 validation error before any write reaches the store —
no irrigation row is inserted and no total changes.  (Negative amounts
are truthy and are not rejected; see the counterexample.) -/
theorem irrigation_zero_amount_rejected (fI fU : Bool) (db : DB)
    (uid cid : Nat) (d : IrrigationData)
    (hdate : truthyStr d.irrigation_date = true)
    (hamt : d.amount_mm = some 0 ∨ d.amount_mm = none) :
    add_irrigation_route fI fU db uid cid d
      = (Except.error ⟨"MISSING_FIELD", "amount_mm is required", 400⟩, db) := by
  rcases hamt with h | h <;>
    simp [add_irrigation_route, hdate, truthyInt, h]

/-- C8 witness: a zero amount on the concrete store is rejected before
any write. -/
theorem irrigation_zero_amount_rejected_witness :
    add_irrigation_route false false baseDB 1 20
        ⟨some "2025-11-20", some 0, none, none, none⟩
      = (Except.error ⟨"MISSING_FIELD", "amount_mm is required", 400⟩, baseDB) :=
  irrigation_zero_amount_rejected false false baseDB 1 20
    ⟨some "2025-11-20", some 0, none, none, none⟩ (by decide) (Or.inl rfl)

/-- C8 counterexample: a strictly negative amount (-5 mm) is not a
validation failure for the code — the operation succeeds, the event row
is stored, and the crop's total is decremented to -5. -/
theorem irrigation_negative_amount_accepted :
    (add_irrigation_route false false baseDB 1 20
        ⟨some "2025-11-20", some (-5), none, none, none⟩).1 = Except.ok 100 ∧
    ((add_irrigation_route false false baseDB 1 20
        ⟨some "2025-11-20", some (-5), none, none, none⟩).2).irrigation_records
      = [⟨100, 20, "2025-11-20", -5, "manual", none, none⟩] ∧
    cropTotal (add_irrigation_route false false baseDB 1 20
        ⟨some "2025-11-20", some (-5), none, none, none⟩).2 20 = some (-5) := by
  decide

set_option maxRecDepth 8192 in
/-- C9 (code bug): the schema script is not idempotent.  The first run on
an empty catalog succeeds, but the five CREATE TRIGGER statements carry
no IF NOT EXISTS guard, so a second run aborts on the first duplicate
trigger: `init_postgresql_database` returns False (the claim requires
the second run to succeed and change nothing). -/
theorem schema_reapply_fails :
    (init_postgresql_database emptySchemaDB).1 = true ∧
    "users_update_timestamp" ∈ (init_postgresql_database emptySchemaDB).2.triggers ∧
    (init_postgresql_database (init_postgresql_database emptySchemaDB).2).1
      = false ∧
    runSchema (init_postgresql_database emptySchemaDB).2 schemaStatements
      = Except.error "trigger users_update_timestamp already exists" := by
  decide

/-- C10: a login with correct credentials but a mismatching requested
user_type is rejected with USER_TYPE_MISMATCH 403, yet the
`authenticate_user` step has already committed the last_login update —
that state change persists although the login as a whole fails. -/
theorem user_type_mismatch_persists_last_login (db : DB) (e p t : String)
    (u : UserRow) (now : Nat) (he : e ≠ "") (hp : p ≠ "") (ht : t ≠ "")
    (hfind : db.users.find? (fun v => v.email == e && v.is_active) = some u)
    (hpw : check_password_hash u.password_hash p = true)
    (hmm : u.user_type ≠ t) :
    login_route db ⟨some e, some p, some t⟩ now
      = (Except.error ⟨"USER_TYPE_MISMATCH", "User type does not match", 403⟩,
         { db with users := db.users.map (fun v =>
             if v.id = u.id then { v with last_login := some now } else v) }) := by
  have hauth : authenticate_user db e p now
      = (some ⟨u.id, u.email, u.name, u.user_type, u.location⟩,
         { db with users := db.users.map (fun v =>
             if v.id = u.id then { v with last_login := some now } else v) }) := by
    simp [authenticate_user, hfind, hpw]
  simp [login_route, he, hp, ht, hauth, hmm, truthyStr_some_false]

/-- C10 witness: farmer A logs in with the right password but requests
user_type "government": the login fails with USER_TYPE_MISMATCH while
A's last_login is now set. -/
theorem user_type_mismatch_persists_last_login_witness :
    login_route baseDB ⟨some "a@x.com", some "pwA", some "government"⟩ 77
      = (Except.error ⟨"USER_TYPE_MISMATCH", "User type does not match", 403⟩,
         { baseDB with users := baseDB.users.map (fun v =>
             if v.id = userA.id then { v with last_login := some 77 } else v) }) :=
  user_type_mismatch_persists_last_login baseDB "a@x.com" "pwA" "government"
    userA 77 (by decide) (by decide) (by decide) (by decide) (by decide)
    (by decide)

end KrishiConnect
